import Mathlib

/-!
Formal model of the teapod terminal podcast manager (Rust).

The embedding translates the pure logic of the repository into Lean:

* an XML document tree standing for the output of the external
  `roxmltree` parser (network, filesystem, clock, clipboard, audio
  device and the XML string parser itself are external collaborators,
  passed in as oracle functions or explicit state);
* the feed parsers of `src/podcast.rs` (`download_podcast_info_from_url`,
  string errors via `ok_or`) and of `src/main.rs` (`parse_podcast_data`,
  which uses `unwrap()`; a `none` result of the model marks a panic);
* the key handlers of the `src/main.rs` event loop (refresh-all, the
  add-podcast Enter handler, the podcast-list Enter handler, the
  playback-start assignment);
* `download_podcast_audio_to_path` of `src/podcast.rs` over an explicit
  association-list filesystem;
* `format_audio_duration` of `src/components/player.rs`; and
* `PodcastInfoPopupState` of `src/components/podcast_info_popup.rs`
  together with a model of ratatui `ScrollbarState`.
-/

/-- XML tree as exposed by `roxmltree`: element nodes with attributes and
children, and text nodes. -/
inductive XmlNode where
  | elem (tag : String) (attrs : List (String × String)) (children : List XmlNode)
  | text (s : String)

namespace XmlNode

/-- The model of `roxmltree` `has_tag_name`. -/
def hasTagName (name : String) : XmlNode → Bool
  | .elem t _ _ => t == name
  | .text _ => false

/-- The model of `roxmltree` `children()`. -/
def children : XmlNode → List XmlNode
  | .elem _ _ cs => cs
  | .text _ => []

/-- The model of `roxmltree` `attribute(name)` (named `attr` because
`attribute` is reserved in Lean). -/
def attr (n : XmlNode) (name : String) : Option String :=
  match n with
  | .elem _ attrs _ => (attrs.find? (fun a => a.1 == name)).map (·.2)
  | .text _ => none

/-- The model of `roxmltree` `text()`: a text node yields its own content,
an element yields the content of its first child when that child is a
text node. -/
def nodeText : XmlNode → Option String
  | .text s => some s
  | .elem _ _ cs =>
    match cs with
    | .text s :: _ => some s
    | _ => none

mutual

/-- The model of `roxmltree` `descendants()`: the node itself followed by
the descendants of its children in document order. -/
def descendants : XmlNode → List XmlNode
  | .text s => [.text s]
  | .elem t a cs => .elem t a cs :: descendantsList cs

/-- Descendants of a list of sibling nodes, in order. -/
def descendantsList : List XmlNode → List XmlNode
  | [] => []
  | n :: ns => descendants n ++ descendantsList ns

end

/-- Find the first child with the given tag, the model of
`node.children().find(|n| n.has_tag_name(name))`. -/
def findChild (n : XmlNode) (name : String) : Option XmlNode :=
  n.children.find? (hasTagName name)

/-- Find the first descendant with the given tag, the model of
`doc.descendants().find(|n| n.has_tag_name(name))`. -/
def findDescendant (n : XmlNode) (name : String) : Option XmlNode :=
  (descendants n).find? (hasTagName name)

end XmlNode

/-- The model of Rust `Option::ok_or` followed by `?`: turn an optional
value into an `Except` with the given error. -/
def okOr {α : Type} (o : Option α) (e : String) : Except String α :=
  match o with
  | some a => .ok a
  | none => .error e

namespace PodcastRs

/-- The `Episode` record of `src/podcast.rs`. -/
structure Episode where
  title : String
  description : String
  pub_date : String
  url : String
  mime_type : String
deriving DecidableEq

/-- The `Podcast` record of `src/podcast.rs`. -/
structure Podcast where
  title : String
  description : String
  url : String
  episodes : List Episode
deriving DecidableEq

/-- Parse one `item` element, the body of the episode loop of
`download_podcast_info_from_url` (src/podcast.rs lines 53-98).  The
`rfc2822` oracle stands for chrono `DateTime::parse_from_rfc2822`
composed with `date_naive().to_string()`; its `none` stands for the
chrono parse error propagated by `?`. -/
def parseItem (rfc2822 : String → Option String) (item : XmlNode) : Except String Episode := do
  let t ← okOr (item.findChild "title") "missing title tag"
  let title := (t.nodeText).getD ""
  let d ← okOr (item.findChild "description") "missing description tag"
  let description := (d.nodeText).getD ""
  let pd ← okOr (item.findChild "pubDate") "missing pubDate tag"
  let pub_date ← okOr (rfc2822 ((pd.nodeText).getD "")) "invalid rfc2822 date"
  let enclosure ← okOr (item.findChild "enclosure") "missing enclosure tag"
  let url ← okOr (enclosure.attr "url") "missing url attr"
  let mime_type ← okOr (enclosure.attr "type") "missing type attr"
  .ok { title, description, pub_date, url, mime_type }

/-- The episode accumulation loop of `download_podcast_info_from_url`:
items are parsed in order and the first failure aborts the whole parse. -/
def parseItems (rfc2822 : String → Option String) : List XmlNode → Except String (List Episode)
  | [] => .ok []
  | it :: rest => do
    let e ← parseItem rfc2822 it
    let es ← parseItems rfc2822 rest
    .ok (e :: es)

/-- The pure core of `download_podcast_info_from_url` (src/podcast.rs
lines 26-106), applied to the XML tree produced by the external
`roxmltree` parser from the fetched text. -/
def downloadPodcastInfoFromUrl (rfc2822 : String → Option String) (url : String)
    (doc : XmlNode) : Except String Podcast := do
  let channel ← okOr (doc.findDescendant "channel") "missing channel tag"
  let t ← okOr (channel.findChild "title") "missing title tag"
  let title := (t.nodeText).getD ""
  let d ← okOr (channel.findChild "description") "missing description tag"
  let description := (d.nodeText).getD ""
  let episodes ← parseItems rfc2822 (channel.children.filter (XmlNode.hasTagName "item"))
  .ok { title, description, url, episodes }

/-- The file-stem convention of Rust `Path::file_stem`: the part of a
file name before its final dot; a name without a dot, or a hidden name
whose only dot is leading, is its own stem. -/
def fileStem (name : String) : String :=
  let parts := name.splitOn "."
  if parts.length ≤ 1 then name
  else if parts.length = 2 ∧ parts.headD "" = "" then name
  else String.intercalate "." parts.dropLast

/-- The model of Rust `Path::with_extension` on a slash-separated path:
replace the extension of the final component. -/
def withExtension (p ext : String) : String :=
  let comps := p.splitOn "/"
  String.intercalate "/" (comps.dropLast ++ [fileStem (comps.getLastD "") ++ "." ++ ext])

/-- The cache path computed by `download_podcast_audio_to_path`:
`path.join(podcast.title).join(episode.title).with_extension("mp3")`. -/
def audioCachePath (path : String) (podcast : Podcast) (episode : Episode) : String :=
  withExtension (path ++ "/" ++ podcast.title ++ "/" ++ episode.title) "mp3"

/-- The model of `download_podcast_audio_to_path` (src/podcast.rs lines
120-135).  The filesystem is an explicit association list from paths to
file contents (`exists` is a successful lookup, `tokio::fs::write` is a
prepend that shadows older entries); `fetch` stands for
`reqwest::get(..).bytes()`.  The result carries the updated filesystem,
the list of URLs actually downloaded during the call, and the returned
audio path. -/
def downloadPodcastAudioToPath (fetch : String → Except String String)
    (fs : List (String × String)) (podcast : Podcast) (episode : Episode)
    (path : String) : Except String (List (String × String) × List String × String) :=
  let audio_file := path ++ "/" ++ podcast.title ++ "/" ++ episode.title
  if episode.mime_type = "audio/mpeg" then
    let audio_file := withExtension audio_file "mp3"
    if (fs.lookup audio_file).isSome then
      .ok (fs, [], audio_file)
    else
      match fetch episode.url with
      | .error e => .error e
      | .ok contents => .ok ((audio_file, contents) :: fs, [episode.url], audio_file)
  else
    .error "audio format not supported"

end PodcastRs

namespace MainRs

/-- The `Episode` record of `src/main.rs` (no MIME type field). -/
structure Episode where
  title : String
  description : String
  date : String
  audio_url : String
deriving DecidableEq

/-- The `Podcast` record of `src/main.rs`. -/
structure Podcast where
  title : String
  description : String
  url : String
  episodes : List Episode
deriving DecidableEq

/-- The `View` enum of `src/main.rs`. -/
inductive View where
  | PodcastList
  | PodcastInfo
  | AddPodcast
  | EpisodeList
  | EpisodeInfo
deriving DecidableEq

/-- Parse one `item` element, the body of the episode map of
`parse_podcast_data` (src/main.rs lines 498-538).  Every fallible step
is an `unwrap()`, so a `none` result marks a panic of the Rust code.
`pubDate` text that the `rfc2822` oracle rejects is defaulted by
`unwrap_or_default()` to the epoch date string. -/
def parseItemMain (rfc2822 : String → Option String) (item : XmlNode) : Option Episode := do
  let t ← item.findChild "title"
  let title ← t.nodeText
  let d ← item.findChild "description"
  let description := (d.nodeText).getD ""
  let pd ← item.findChild "pubDate"
  let date := (rfc2822 ((pd.nodeText).getD "")).getD "1970-01-01"
  let enclosure ← item.findChild "enclosure"
  let audio_url ← enclosure.attr "url"
  some { title, description, date, audio_url }

/-- The pure core of `parse_podcast_data` (src/main.rs lines 471-547),
applied to the XML tree produced by `roxmltree`.  A `none` result marks
a panic: the function resolves every missing node or attribute with
`unwrap()`. -/
def parsePodcastData (rfc2822 : String → Option String) (url : String)
    (doc : XmlNode) : Option Podcast := do
  let channel ← doc.findDescendant "channel"
  let t ← channel.findChild "title"
  let title ← t.nodeText
  let d ← channel.findChild "description"
  let description := (d.nodeText).getD ""
  let episodes ← (channel.children.filter (XmlNode.hasTagName "item")).mapM
    (parseItemMain rfc2822)
  some { title, description, url, episodes }

/-- The navigation and collection state of the `src/main.rs` event loop
that the key handlers below read and write: the podcast collection, the
current view, the two list selections, and the add-podcast URL buffer. -/
structure AppState where
  podcasts : List Podcast
  currentView : View
  podcastSelected : Option Nat
  episodeSelected : Option Nat
  urlToAdd : String
deriving DecidableEq

/-- The `Enter` handler of the `View::PodcastList` arm (src/main.rs lines
339-346): when a podcast is selected and has episodes the first episode
is selected, and the view becomes `EpisodeList` unconditionally.  The
selected index is kept in bounds by the list widget, so out-of-bounds
indexing is resolved with a default. -/
def handlePodcastListEnter (s : AppState) : AppState :=
  let s' :=
    match s.podcastSelected with
    | none => s
    | some i =>
      if ((s.podcasts.getD i ⟨"", "", "", []⟩).episodes).isEmpty then s
      else { s with episodeSelected := some 0 }
  { s' with currentView := .EpisodeList }

/-- The ratatui `ListState::select_next` step used after a successful
add: the selection moves to the next index, or to the first entry when
nothing was selected. -/
def selectNext : Option Nat → Option Nat
  | none => some 0
  | some i => some (i + 1)

/-- The `Enter` handler of the `View::AddPodcast` arm (src/main.rs lines
384-405).  `remote` stands for the awaited chain
`reqwest::get(url).text()` + `parse_podcast_data` + directory creation +
`feed.json` write, each failure of which leaves the handler through `?`
(ending the session) and is reported here as `some` error.  The result
carries the new state, the list of URLs fetched during the call, and the
propagated error if any.  A URL already present in the collection takes
the `Some` arm of the duplicate check, whose body is only a TODO
comment: nothing happens. -/
def addEnter (remote : String → Except String Podcast) (s : AppState) :
    AppState × List String × Option String :=
  match s.podcasts.find? (fun p => p.url == s.urlToAdd) with
  | some _ => (s, [], none)
  | none =>
    match remote s.urlToAdd with
    | .error e => (s, [s.urlToAdd], some e)
    | .ok p =>
      ({ s with
          podcasts := s.podcasts ++ [p]
          podcastSelected := selectNext s.podcastSelected
          currentView := .PodcastList },
        [s.urlToAdd], none)

/-- One iteration of the refresh loop of the `KeyCode::Char('u')` handler
(src/main.rs lines 314-323): fetch the feed text, parse it, persist the
replacement record; every failure leaves `main` through `?`. -/
def refreshStep (fetch : String → Except String String)
    (parse : String → String → Except String Podcast)
    (persist : Podcast → Except String Unit) (p : Podcast) : Except String Podcast := do
  let text ← fetch p.url
  let p' ← parse p.url text
  let _ ← persist p'
  .ok p'

/-- The whole refresh loop: podcasts are processed in order; a success
replaces the record in place, and the first failing step aborts the loop
(and the session) leaving the failing podcast and all later ones
untouched.  The result is the final collection and the propagated error
if any. -/
def refreshAll (fetch : String → Except String String)
    (parse : String → String → Except String Podcast)
    (persist : Podcast → Except String Unit) :
    List Podcast → List Podcast × Option String
  | [] => ([], none)
  | p :: ps =>
    match refreshStep fetch parse persist p with
    | .error e => (p :: ps, some e)
    | .ok p' =>
      let rest := refreshAll fetch parse persist ps
      (p' :: rest.1, rest.2)

/-- Playback state of `src/main.rs`: `player_sink : Option<Sink>`
together with a ghost set of rodio sinks currently alive in the process.
Rust ownership ties the two: the option holds the only handle, and
dropping a rodio `Sink` stops its sound.  `nextId` is a fresh-name
supply for newly created sinks. -/
structure PlayerState where
  liveSinks : List Nat
  currentSink : Option Nat
  nextId : Nat
deriving DecidableEq

/-- The sink replacement of the `View::EpisodeList` `Enter` handler
(src/main.rs lines 428-431): `player_sink = Some(rodio::play(..)?)`.
Assigning the option drops the previously owned sink, which stops it;
the newly created sink is the one the option now owns. -/
def startPlayback (s : PlayerState) : PlayerState :=
  let live :=
    match s.currentSink with
    | none => s.liveSinks
    | some k => s.liveSinks.filter (fun x => x ≠ k)
  { liveSinks := live ++ [s.nextId]
    currentSink := some s.nextId
    nextId := s.nextId + 1 }

end MainRs

namespace Components

/-- Zero-padding to width two, the model of the Rust format specifier
`{:02}` on an unsigned integer. -/
def pad2 (n : Nat) : String :=
  if n < 10 then "0" ++ Nat.repr n else Nat.repr n

/-- The model of `format_audio_duration`
(src/components/player.rs lines 52-60) on the whole number of seconds of
the duration (`duration.as_secs()`). -/
def format_audio_duration (totalSeconds : Nat) : String :=
  let hours := totalSeconds / (60 * 60)
  let totalSeconds := totalSeconds % (60 * 60)
  let minutes := totalSeconds / 60
  let seconds := totalSeconds % 60
  pad2 hours ++ ":" ++ pad2 minutes ++ ":" ++ pad2 seconds

/-- The model of ratatui `ScrollbarState` (an external dependency of the
component files): a position, a content length and a viewport length,
with `usize` arithmetic as `Nat`. -/
structure ScrollbarState where
  content_length : Nat
  position : Nat
  viewport_content_length : Nat
deriving DecidableEq

namespace ScrollbarState

/-- Ratatui `ScrollbarState::first`: the position becomes zero. -/
def first (s : ScrollbarState) : ScrollbarState :=
  { s with position := 0 }

/-- Ratatui `ScrollbarState::prev`: the position decreases by one,
saturating at zero. -/
def prev (s : ScrollbarState) : ScrollbarState :=
  { s with position := s.position - 1 }

/-- Ratatui `ScrollbarState::next`: the position increases by one, capped
at `content_length - 1`. -/
def next (s : ScrollbarState) : ScrollbarState :=
  { s with position := min (s.position + 1) (s.content_length - 1) }

end ScrollbarState

/-- The `PodcastInfoPopupState` of
`src/components/podcast_info_popup.rs`: a `u16` scroll offset and the
attached scrollbar state. -/
structure PodcastInfoPopupState where
  scroll_offset : Nat
  scroll_state : ScrollbarState
deriving DecidableEq

namespace PodcastInfoPopupState

/-- `PodcastInfoPopupState::first` (lines 19-22). -/
def first (s : PodcastInfoPopupState) : PodcastInfoPopupState :=
  { scroll_offset := 0, scroll_state := s.scroll_state.first }

/-- `PodcastInfoPopupState::prev` (lines 24-27): the offset saturates
down by one while the source calls `self.scroll_state.next()` on the
scrollbar. -/
def prev (s : PodcastInfoPopupState) : PodcastInfoPopupState :=
  { scroll_offset := s.scroll_offset - 1, scroll_state := s.scroll_state.next }

/-- `PodcastInfoPopupState::next` (lines 29-32): the offset saturates up
by one (`u16::saturating_add`) and the scrollbar steps forward. -/
def next (s : PodcastInfoPopupState) : PodcastInfoPopupState :=
  { scroll_offset := min (s.scroll_offset + 1) 65535, scroll_state := s.scroll_state.next }

end PodcastInfoPopupState

end Components

/-- Generalisation of `okOr` to an arbitrary error type, for the typed
errors of `src/rss.rs`. -/
def okOrE {ε α : Type} (o : Option α) (e : ε) : Except ε α :=
  match o with
  | some a => .ok a
  | none => .error e

namespace RssRs

/-- The `RssParseError` enum of `src/rss.rs`. -/
inductive RssParseError where
  | MissingTag
  | MissingValue
  | MissingAttr
deriving DecidableEq

/-- The error carrier of `download_podcast_info` in `src/rss.rs`
(`Box<dyn Error>`): either an `RssParseError` or the chrono date parse
error propagated by `?`. -/
inductive RssFail where
  | rss (e : RssParseError)
  | chrono
deriving DecidableEq

/-- The `Audio` record of `src/rss.rs`. -/
structure Audio where
  mime_type : String
  url : String
deriving DecidableEq

/-- The `Episode` record of `src/rss.rs`. -/
structure Episode where
  title : String
  description : String
  date : String
  audio : Audio
deriving DecidableEq

/-- The `Podcast` record of `src/rss.rs`. -/
structure Podcast where
  title : String
  description : String
  url : String
  episodes : List Episode
deriving DecidableEq

/-- One element of the episode map of `download_podcast_info`
(src/rss.rs lines 67-116): item title text is required, the description
element is required with its text defaulted to empty, and the enclosure
attributes are read `type` first, then `url`. -/
def parseEpisode (rfc2822 : String → Option String) (elem : XmlNode) :
    Except RssFail Episode := do
  let t ← okOrE (elem.findChild "title") (.rss .MissingTag)
  let episode_title ← okOrE t.nodeText (.rss .MissingValue)
  let d ← okOrE (elem.findChild "description") (.rss .MissingTag)
  let episode_description := (d.nodeText).getD ""
  let pd ← okOrE (elem.findChild "pubDate") (.rss .MissingTag)
  let pdText ← okOrE pd.nodeText (.rss .MissingValue)
  let episode_date ← okOrE (rfc2822 pdText) .chrono
  let enc ← okOrE (elem.findChild "enclosure") (.rss .MissingTag)
  let mime_type ← okOrE (enc.attr "type") (.rss .MissingAttr)
  let audio_url ← okOrE (enc.attr "url") (.rss .MissingAttr)
  .ok { title := episode_title, description := episode_description,
        date := episode_date, audio := { mime_type, url := audio_url } }

/-- The episode collection of `download_podcast_info`: the first failing
item wins, in document order. -/
def parseEpisodes (rfc2822 : String → Option String) :
    List XmlNode → Except RssFail (List Episode)
  | [] => .ok []
  | e :: rest => do
    let ep ← parseEpisode rfc2822 e
    let eps ← parseEpisodes rfc2822 rest
    .ok (ep :: eps)

/-- The pure core of `download_podcast_info` (src/rss.rs lines 43-125).
The channel description is read from the channel's `title` element —
src/rss.rs line 59 searches for `title`, not `description` — so a
channel without a description element is not an error here. -/
def downloadPodcastInfo (rfc2822 : String → Option String) (url : String)
    (doc : XmlNode) : Except RssFail Podcast := do
  let channel ← okOrE (doc.findDescendant "channel") (.rss .MissingTag)
  let t1 ← okOrE (channel.findChild "title") (.rss .MissingTag)
  let channel_title ← okOrE t1.nodeText (.rss .MissingValue)
  let t2 ← okOrE (channel.findChild "title") (.rss .MissingTag)
  let channel_description ← okOrE t2.nodeText (.rss .MissingValue)
  let episodes ← parseEpisodes rfc2822 (channel.children.filter (XmlNode.hasTagName "item"))
  .ok { title := channel_title, description := channel_description, url, episodes }

end RssRs

/-- A feed document with no `channel` element anywhere. -/
def c4Doc : XmlNode := .elem "rss" [] [.elem "foo" [] []]

/-- A feed whose single item has an enclosure with a `url` attribute but
no `type` attribute. -/
def c5Doc : XmlNode :=
  .elem "rss" []
    [.elem "channel" []
      [.elem "title" [] [.text "T"],
       .elem "description" [] [.text "D"],
       .elem "item" []
         [.elem "title" [] [.text "E"],
          .elem "description" [] [.text "d"],
          .elem "pubDate" [] [.text "Mon, 01 Jan 2024 00:00:00 +0000"],
          .elem "enclosure" [("url", "http://x/e.mp3")] []]]]

/-- The channel of `c5Doc`. -/
def c5Channel : XmlNode :=
  .elem "channel" []
    [.elem "title" [] [.text "T"],
     .elem "description" [] [.text "D"],
     .elem "item" []
       [.elem "title" [] [.text "E"],
        .elem "description" [] [.text "d"],
        .elem "pubDate" [] [.text "Mon, 01 Jan 2024 00:00:00 +0000"],
        .elem "enclosure" [("url", "http://x/e.mp3")] []]]

/-- The item of `c5Doc`. -/
def c5Item : XmlNode :=
  .elem "item" []
    [.elem "title" [] [.text "E"],
     .elem "description" [] [.text "d"],
     .elem "pubDate" [] [.text "Mon, 01 Jan 2024 00:00:00 +0000"],
     .elem "enclosure" [("url", "http://x/e.mp3")] []]

/-- A feed whose channel has a title but no description element. -/
def c6Doc : XmlNode :=
  .elem "rss" [] [.elem "channel" [] [.elem "title" [] [.text "T"]]]

/-- The channel of `c6Doc`. -/
def c6Channel : XmlNode :=
  .elem "channel" [] [.elem "title" [] [.text "T"]]

/-- A well-formed item whose description element is present but has no
text content. -/
def c6Item : XmlNode :=
  .elem "item" []
    [.elem "title" [] [.text "E"],
     .elem "description" [] [],
     .elem "pubDate" [] [.text "Mon, 01 Jan 2024 00:00:00 +0000"],
     .elem "enclosure" [("url", "http://x/e.mp3"), ("type", "audio/mpeg")] []]

/-- A feed whose channel has a description element with no text content. -/
def c6WDoc : XmlNode :=
  .elem "rss" []
    [.elem "channel" [] [.elem "title" [] [.text "T"], .elem "description" [] []]]

/-- The channel of `c6WDoc`. -/
def c6WChannel : XmlNode :=
  .elem "channel" [] [.elem "title" [] [.text "T"], .elem "description" [] []]

/-- With positive fuel, the digit accumulator prepends at least one
character. -/
theorem toDigitsCore_len_lower (b : Nat) :
    ∀ (f n : Nat) (l : List Char), 0 < f →
      l.length + 1 ≤ (Nat.toDigitsCore b f n l).length := by
  intro f
  induction f with
  | zero => intro n l h; cases h
  | succ f ih =>
    intro n l _
    simp only [Nat.toDigitsCore]
    by_cases hd : n / b = 0
    · simp [hd]
    · simp only [hd, if_false]
      cases f with
      | zero => simp [Nat.toDigitsCore]
      | succ f =>
        calc l.length + 1 ≤ (Nat.digitChar (n % b) :: l).length + 1 := by simp
        _ ≤ _ := ih (n / b) (Nat.digitChar (n % b) :: l) (Nat.succ_pos f)

/-- The decimal representation of a natural number is never empty. -/
theorem repr_len_lower (n : Nat) : 1 ≤ (Nat.repr n).length := by
  simp only [Nat.repr, Nat.toDigits, String.length, List.asString]
  have := toDigitsCore_len_lower 10 (n + 1) n [] (Nat.succ_pos n)
  simpa using this

/-- The decimal representation of a number of at least ten has at least
two digits. -/
theorem repr_len_two (n : Nat) (h : 10 ≤ n) : 2 ≤ (Nat.repr n).length := by
  simp only [Nat.repr, Nat.toDigits, String.length, List.asString]
  have hd : ¬ n / 10 = 0 := by omega
  simp only [Nat.toDigitsCore, hd, if_false]
  have hf : 0 < n := by omega
  cases n with
  | zero => omega
  | succ m =>
    have := toDigitsCore_len_lower 10 (m + 1) ((m + 1) / 10)
      [Nat.digitChar ((m + 1) % 10)] (Nat.succ_pos m)
    simpa using this

/-- Width-two zero padding always yields at least two characters. -/
theorem pad2_len (n : Nat) : 2 ≤ (Components.pad2 n).length := by
  unfold Components.pad2
  by_cases h : n < 10
  · have := repr_len_lower n
    have h0 : ("0" : String).length = 1 := rfl
    simp [h, String.length_append, h0]
    omega
  · have := repr_len_two n (by omega)
    simp [h]
    omega

/-- C9: for every duration, `format_audio_duration` renders three fields
`HH:MM:SS`, each through the width-two zero-padding of `{:02}` (so each
field has at least two characters), with the minutes and seconds below
sixty and the three fields recombining to the whole number of seconds of
the duration. -/
theorem c9_format_audio_duration_fields (n : Nat) :
    ∃ h m s, Components.format_audio_duration n
        = Components.pad2 h ++ ":" ++ Components.pad2 m ++ ":" ++ Components.pad2 s
      ∧ 2 ≤ (Components.pad2 h).length ∧ 2 ≤ (Components.pad2 m).length
      ∧ 2 ≤ (Components.pad2 s).length
      ∧ m < 60 ∧ s < 60 ∧ h * 3600 + m * 60 + s = n := by
  refine ⟨n / (60 * 60), n % (60 * 60) / 60, n % (60 * 60) % 60, rfl,
    pad2_len _, pad2_len _, pad2_len _, ?_, ?_, ?_⟩ <;> omega

/-- C10: at the concrete popup state with offset one and scrollbar
position zero over three content lines, `prev` lowers the offset to zero
but moves the scrollbar position forward to one (the source calls
`scroll_state.next()` inside `prev`), and `prev` followed by `next` does
not restore the state. -/
theorem c10_prev_steps_scrollbar_forward :
    (Components.PodcastInfoPopupState.prev ⟨1, ⟨3, 0, 0⟩⟩).scroll_offset = 0
    ∧ (Components.PodcastInfoPopupState.prev ⟨1, ⟨3, 0, 0⟩⟩).scroll_state.position = 1
    ∧ Components.PodcastInfoPopupState.next (Components.PodcastInfoPopupState.prev ⟨1, ⟨3, 0, 0⟩⟩)
        ≠ ⟨1, ⟨3, 0, 0⟩⟩ := by
  refine ⟨rfl, rfl, ?_⟩
  decide

/-- C2 counterexample: in the state with no podcast selected, pressing
`Enter` on the podcast list is not refused: the active view changes from
`PodcastList` to `EpisodeList`. -/
theorem c2_counterexample_enter_without_selection :
    (MainRs.handlePodcastListEnter ⟨[], .PodcastList, none, none, ""⟩).currentView
        = MainRs.View.EpisodeList
    ∧ MainRs.View.EpisodeList ≠ MainRs.View.PodcastList := by
  refine ⟨rfl, ?_⟩
  decide

/-- C2 amended: pressing `Enter` on the podcast list is never refused —
in every state the current view becomes `EpisodeList`.  With no podcast
selected nothing else changes (no crash); with a selected podcast whose
episode list is non-empty the first episode is selected as well; with a
selected podcast without episodes nothing else changes. -/
theorem c2_enter_always_switches_view (s : MainRs.AppState) :
    (MainRs.handlePodcastListEnter s).currentView = .EpisodeList
    ∧ (s.podcastSelected = none →
        MainRs.handlePodcastListEnter s = { s with currentView := .EpisodeList })
    ∧ (∀ i, s.podcastSelected = some i →
        (s.podcasts.getD i ⟨"", "", "", []⟩).episodes ≠ [] →
        MainRs.handlePodcastListEnter s
          = { s with episodeSelected := some 0, currentView := .EpisodeList })
    ∧ (∀ i, s.podcastSelected = some i →
        (s.podcasts.getD i ⟨"", "", "", []⟩).episodes = [] →
        MainRs.handlePodcastListEnter s = { s with currentView := .EpisodeList }) := by
  refine ⟨rfl, ?_, ?_, ?_⟩
  · intro h
    simp [MainRs.handlePodcastListEnter, h]
  · intro i hi hne
    simp only [List.getD, List.get?_eq_getElem?] at hne
    simp [MainRs.handlePodcastListEnter, hi, List.isEmpty_iff, hne]
  · intro i hi he
    simp only [List.getD, List.get?_eq_getElem?] at he
    simp [MainRs.handlePodcastListEnter, hi, List.isEmpty_iff, he]

/-- C2 witness: the amended theorem applied to the empty initial state
and to a state whose selected podcast has one episode. -/
theorem c2_witness :
    MainRs.handlePodcastListEnter ⟨[], .PodcastList, none, none, ""⟩
        = ⟨[], .EpisodeList, none, none, ""⟩
    ∧ MainRs.handlePodcastListEnter
        ⟨[⟨"P", "", "http://p", [⟨"E", "", "2024-01-01", "http://e"⟩]⟩], .PodcastList,
          some 0, none, ""⟩
        = ⟨[⟨"P", "", "http://p", [⟨"E", "", "2024-01-01", "http://e"⟩]⟩], .EpisodeList,
          some 0, some 0, ""⟩ :=
  ⟨(c2_enter_always_switches_view ⟨[], .PodcastList, none, none, ""⟩).2.1 rfl,
    (c2_enter_always_switches_view
        ⟨[⟨"P", "", "http://p", [⟨"E", "", "2024-01-01", "http://e"⟩]⟩], .PodcastList,
          some 0, none, ""⟩).2.2.1 0 rfl (by decide)⟩

/-- C8: starting playback from any player state whose ghost set of live
sinks matches the owned option and whose identifiers are fresh leaves
exactly one live sink, the newly created one; the previously owned sink
is dropped by the assignment and is no longer live. -/
theorem c8_single_session (s : MainRs.PlayerState)
    (hlive : s.liveSinks = s.currentSink.toList)
    (hfresh : ∀ k ∈ s.liveSinks, k < s.nextId) :
    (MainRs.startPlayback s).liveSinks = [s.nextId]
    ∧ (MainRs.startPlayback s).currentSink = some s.nextId
    ∧ ∀ k, s.currentSink = some k → k ∉ (MainRs.startPlayback s).liveSinks := by
  cases hc : s.currentSink with
  | none =>
    refine ⟨?_, ?_, ?_⟩
    · simp [MainRs.startPlayback, hlive, hc]
    · simp [MainRs.startPlayback]
    · intro k hk
      simp [hc] at hk
  | some k =>
    have hk : k ∈ s.liveSinks := by simp [hlive, hc]
    have hklt : k < s.nextId := hfresh k hk
    refine ⟨?_, ?_, ?_⟩
    · simp [MainRs.startPlayback, hlive, hc]
    · simp [MainRs.startPlayback]
    · intro k' hk' hmem
      obtain rfl : k = k' := by injection hk'
      simp [MainRs.startPlayback, hlive, hc] at hmem
      omega

/-- C8 witness: the invariant theorem applied to a state already playing
sink five. -/
theorem c8_witness :
    (⟨[5], some 5, 6⟩ : MainRs.PlayerState).liveSinks
        = (⟨[5], some 5, 6⟩ : MainRs.PlayerState).currentSink.toList
    ∧ (MainRs.startPlayback ⟨[5], some 5, 6⟩).liveSinks = [6]
    ∧ 5 ∉ (MainRs.startPlayback ⟨[5], some 5, 6⟩).liveSinks :=
  ⟨rfl, (c8_single_session ⟨[5], some 5, 6⟩ rfl (by decide)).1,
    (c8_single_session ⟨[5], some 5, 6⟩ rfl (by decide)).2.2 5 rfl⟩

/-- C3 counterexample: adding a URL already present in the collection
does not fail with an error at all: the handler result carries no error
value, performs no fetch, and leaves the state exactly as it was (the
duplicate arm of the match is an empty TODO body). -/
theorem c3_counterexample_duplicate_raises_no_error :
    MainRs.addEnter (fun _ => .error "no network")
        ⟨[⟨"A", "", "http://a", []⟩], .AddPodcast, some 0, none, "http://a"⟩
      = (⟨[⟨"A", "", "http://a", []⟩], .AddPodcast, some 0, none, "http://a"⟩, [], none) := by
  decide

/-- C3 amended: adding a URL that is already the source URL of some
podcast in the collection is a silent no-op: the collection (hence its
length) is unchanged, no fetch, parse or persist is attempted, no error
is produced, and the view stays on the add-podcast form. -/
theorem c3_duplicate_add_is_silent_noop (remote : String → Except String MainRs.Podcast)
    (s : MainRs.AppState) (h : ∃ p ∈ s.podcasts, p.url = s.urlToAdd) :
    MainRs.addEnter remote s = (s, [], none) := by
  have hsome : (s.podcasts.find? (fun p => p.url == s.urlToAdd)).isSome := by
    rw [List.find?_isSome]
    obtain ⟨p, hp, hurl⟩ := h
    exact ⟨p, hp, by simp [hurl]⟩
  cases hf : s.podcasts.find? (fun p => p.url == s.urlToAdd) with
  | none => rw [hf] at hsome; simp at hsome
  | some q => simp [MainRs.addEnter, hf]

/-- C3 witness: the amended theorem applied to a one-podcast collection
and the same URL again. -/
theorem c3_witness :
    (⟨"A", "", "http://a", []⟩ : MainRs.Podcast) ∈
        (⟨[⟨"A", "", "http://a", []⟩], .AddPodcast, some 0, none, "http://a"⟩
          : MainRs.AppState).podcasts
    ∧ MainRs.addEnter (fun u => .ok ⟨"B", "", u, []⟩)
        ⟨[⟨"A", "", "http://a", []⟩], .AddPodcast, some 0, none, "http://a"⟩
      = (⟨[⟨"A", "", "http://a", []⟩], .AddPodcast, some 0, none, "http://a"⟩, [], none) :=
  ⟨List.mem_singleton.mpr rfl,
    c3_duplicate_add_is_silent_noop (fun u => .ok ⟨"B", "", u, []⟩)
      ⟨[⟨"A", "", "http://a", []⟩], .AddPodcast, some 0, none, "http://a"⟩
      ⟨⟨"A", "", "http://a", []⟩, List.mem_singleton.mpr rfl, rfl⟩⟩

/-- C7: when the cache file for an mp3 episode is absent, the download
step fetches the audio URL exactly once and afterwards the file exists
with the fetched bytes; and whenever the cache file exists — whatever
its contents — the step fetches nothing and leaves the filesystem
unchanged, so a second playback request downloads zero times. -/
theorem c7_download_idempotent (fetch : String → Except String String)
    (fs : List (String × String)) (podcast : PodcastRs.Podcast)
    (episode : PodcastRs.Episode) (path bytes : String)
    (hmime : episode.mime_type = "audio/mpeg")
    (hfetch : fetch episode.url = .ok bytes)
    (habsent : fs.lookup (PodcastRs.audioCachePath path podcast episode) = none) :
    PodcastRs.downloadPodcastAudioToPath fetch fs podcast episode path
      = .ok ((PodcastRs.audioCachePath path podcast episode, bytes) :: fs,
          [episode.url], PodcastRs.audioCachePath path podcast episode)
    ∧ ((PodcastRs.audioCachePath path podcast episode, bytes) :: fs).lookup
        (PodcastRs.audioCachePath path podcast episode) = some bytes
    ∧ ∀ (fs' : List (String × String)) (c : String),
        fs'.lookup (PodcastRs.audioCachePath path podcast episode) = some c →
        PodcastRs.downloadPodcastAudioToPath fetch fs' podcast episode path
          = .ok (fs', [], PodcastRs.audioCachePath path podcast episode) := by
  refine ⟨?_, ?_, ?_⟩
  · simp only [PodcastRs.audioCachePath] at habsent
    simp [PodcastRs.downloadPodcastAudioToPath, hmime, habsent, hfetch,
      PodcastRs.audioCachePath]
  · simp [List.lookup]
  · intro fs' c hc
    simp only [PodcastRs.audioCachePath] at hc
    simp [PodcastRs.downloadPodcastAudioToPath, hmime, hc, PodcastRs.audioCachePath]

/-- C7 witness: a concrete mp3 episode with an empty cache downloads
once, creating `/data/P/E1.mp3`; the second request downloads nothing. -/
theorem c7_witness :
    (⟨"E1", "", "2024-01-01", "http://x/e1.mp3", "audio/mpeg"⟩
        : PodcastRs.Episode).mime_type = "audio/mpeg"
    ∧ ([] : List (String × String)).lookup
        (PodcastRs.audioCachePath "/data" ⟨"P", "", "http://p", []⟩
          ⟨"E1", "", "2024-01-01", "http://x/e1.mp3", "audio/mpeg"⟩) = none
    ∧ PodcastRs.downloadPodcastAudioToPath (fun _ => .ok "bytes") []
        ⟨"P", "", "http://p", []⟩
        ⟨"E1", "", "2024-01-01", "http://x/e1.mp3", "audio/mpeg"⟩ "/data"
      = .ok ([(PodcastRs.audioCachePath "/data" ⟨"P", "", "http://p", []⟩
            ⟨"E1", "", "2024-01-01", "http://x/e1.mp3", "audio/mpeg"⟩, "bytes")],
          ["http://x/e1.mp3"],
          PodcastRs.audioCachePath "/data" ⟨"P", "", "http://p", []⟩
            ⟨"E1", "", "2024-01-01", "http://x/e1.mp3", "audio/mpeg"⟩)
    ∧ PodcastRs.downloadPodcastAudioToPath (fun _ => .ok "bytes")
        [(PodcastRs.audioCachePath "/data" ⟨"P", "", "http://p", []⟩
            ⟨"E1", "", "2024-01-01", "http://x/e1.mp3", "audio/mpeg"⟩, "bytes")]
        ⟨"P", "", "http://p", []⟩
        ⟨"E1", "", "2024-01-01", "http://x/e1.mp3", "audio/mpeg"⟩ "/data"
      = .ok ([(PodcastRs.audioCachePath "/data" ⟨"P", "", "http://p", []⟩
            ⟨"E1", "", "2024-01-01", "http://x/e1.mp3", "audio/mpeg"⟩, "bytes")],
          [], PodcastRs.audioCachePath "/data" ⟨"P", "", "http://p", []⟩
            ⟨"E1", "", "2024-01-01", "http://x/e1.mp3", "audio/mpeg"⟩) :=
  ⟨rfl, rfl,
    (c7_download_idempotent (fun _ => .ok "bytes") [] ⟨"P", "", "http://p", []⟩
      ⟨"E1", "", "2024-01-01", "http://x/e1.mp3", "audio/mpeg"⟩ "/data" "bytes"
      rfl rfl rfl).1,
    (c7_download_idempotent (fun _ => .ok "bytes") [] ⟨"P", "", "http://p", []⟩
      ⟨"E1", "", "2024-01-01", "http://x/e1.mp3", "audio/mpeg"⟩ "/data" "bytes"
      rfl rfl rfl).2.2 _ "bytes"
      (c7_download_idempotent (fun _ => .ok "bytes") [] ⟨"P", "", "http://p", []⟩
        ⟨"E1", "", "2024-01-01", "http://x/e1.mp3", "audio/mpeg"⟩ "/data" "bytes"
        rfl rfl rfl).2.1⟩

/-- C1 counterexample: refreshing three podcasts where the second fetch
fails produces no per-podcast result list; the error of the second feed
aborts the loop through the question-mark operator, so the first podcast
is updated but the third keeps its old record even though its own
refresh step succeeds. -/
theorem c1_counterexample_refresh_aborts_later_feeds :
    MainRs.refreshAll
        (fun u => if u == "http://b" then .error "network error" else .ok "xml")
        (fun u _ => .ok ⟨"R", "", u, []⟩) (fun _ => .ok ())
        [⟨"A", "", "http://a", []⟩, ⟨"B", "", "http://b", []⟩, ⟨"C", "", "http://c", []⟩]
      = ([⟨"R", "", "http://a", []⟩, ⟨"B", "", "http://b", []⟩, ⟨"C", "", "http://c", []⟩],
          some "network error")
    ∧ MainRs.refreshStep
        (fun u => if u == "http://b" then .error "network error" else .ok "xml")
        (fun u _ => .ok ⟨"R", "", u, []⟩) (fun _ => .ok ()) ⟨"C", "", "http://c", []⟩
      = .ok ⟨"R", "", "http://c", []⟩
    ∧ (⟨"R", "", "http://c", []⟩ : MainRs.Podcast) ≠ ⟨"C", "", "http://c", []⟩ := by
  refine ⟨rfl, rfl, ?_⟩
  decide

/-- C1 amended: the refresh loop is sequential and fail-fast: with every
podcast before the failing one refreshing successfully, the collection
after the loop holds the refreshed records of that prefix, the failing
podcast and every later one keep their old records, and the failing
step's error is propagated out of the loop (ending the session). -/
theorem c1_refresh_fail_fast (fetch : String → Except String String)
    (parse : String → String → Except String MainRs.Podcast)
    (persist : MainRs.Podcast → Except String Unit)
    (pre post : List MainRs.Podcast) (p : MainRs.Podcast) (e : String)
    (hpre : ∀ q ∈ pre, ∃ q', MainRs.refreshStep fetch parse persist q = .ok q')
    (hp : MainRs.refreshStep fetch parse persist p = .error e) :
    MainRs.refreshAll fetch parse persist (pre ++ p :: post)
      = (pre.map (fun q => ((MainRs.refreshStep fetch parse persist q).toOption).getD q)
          ++ p :: post, some e) := by
  induction pre with
  | nil => simp [MainRs.refreshAll, hp]
  | cons q rest ih =>
    obtain ⟨q', hq⟩ := hpre q (List.mem_cons_self q rest)
    have ih' := ih (fun r hr => hpre r (List.mem_cons_of_mem q hr))
    simp [MainRs.refreshAll, hq, ih', Except.toOption]

/-- C1 witness: the fail-fast theorem applied to the three-feed scenario
whose middle feed fails. -/
theorem c1_witness :
    MainRs.refreshStep
        (fun u => if u == "http://b" then .error "network error" else .ok "xml")
        (fun u _ => .ok ⟨"R", "", u, []⟩) (fun _ => .ok ()) ⟨"B", "", "http://b", []⟩
      = .error "network error"
    ∧ MainRs.refreshAll
        (fun u => if u == "http://b" then .error "network error" else .ok "xml")
        (fun u _ => .ok ⟨"R", "", u, []⟩) (fun _ => .ok ())
        [⟨"A", "", "http://a", []⟩, ⟨"B", "", "http://b", []⟩, ⟨"C", "", "http://c", []⟩]
      = ([⟨"R", "", "http://a", []⟩, ⟨"B", "", "http://b", []⟩, ⟨"C", "", "http://c", []⟩],
          some "network error") :=
  ⟨rfl, by
    have h := c1_refresh_fail_fast
      (fun u => if u == "http://b" then .error "network error" else .ok "xml")
      (fun u _ => .ok ⟨"R", "", u, []⟩) (fun _ => .ok ())
      [⟨"A", "", "http://a", []⟩] [⟨"C", "", "http://c", []⟩] ⟨"B", "", "http://b", []⟩
      "network error"
      (by
        intro q hq
        simp only [List.mem_singleton] at hq
        subst hq
        exact ⟨⟨"R", "", "http://a", []⟩, rfl⟩)
      rfl
    exact h⟩

/-- Inversion for a successful bind in the `Except` monad. -/
theorem except_bind_ok {α β : Type} (x : Except String α) (f : α → Except String β)
    (b : β) (h : (x >>= f) = .ok b) : ∃ a, x = .ok a ∧ f a = .ok b := by
  cases x with
  | error e => simp [Bind.bind, Except.bind] at h
  | ok a => exact ⟨a, rfl, by simpa [Bind.bind, Except.bind] using h⟩

/-- Inversion for a successful bind whose head is an `ok_or` conversion:
the option must be `some` and the continuation must succeed on it. -/
theorem bind_okOr_ok {α β : Type} (o : Option α) (e : String)
    (f : α → Except String β) (b : β) (h : (okOr o e >>= f) = .ok b) :
    ∃ a, o = some a ∧ f a = .ok b := by
  cases o with
  | none => simp [okOr, Bind.bind, Except.bind] at h
  | some a => exact ⟨a, rfl, by simpa [okOr, Bind.bind, Except.bind] using h⟩

/-- An item whose enclosure lacks the `url` or the `type` attribute never
parses to an episode: some step of `parseItem` fails first. -/
theorem parseItem_not_ok_of_bad_enclosure (rfc2822 : String → Option String)
    (item enc : XmlNode) (henc : item.findChild "enclosure" = some enc)
    (hbad : enc.attr "url" = none ∨ enc.attr "type" = none) :
    ∀ ep, PodcastRs.parseItem rfc2822 item ≠ .ok ep := by
  intro ep hok
  unfold PodcastRs.parseItem at hok
  obtain ⟨t, ht, hok⟩ := bind_okOr_ok _ _ _ _ hok
  obtain ⟨d, hd, hok⟩ := bind_okOr_ok _ _ _ _ hok
  obtain ⟨pd, hpd, hok⟩ := bind_okOr_ok _ _ _ _ hok
  obtain ⟨dt, hdt, hok⟩ := bind_okOr_ok _ _ _ _ hok
  obtain ⟨encl, hencl, hok⟩ := bind_okOr_ok _ _ _ _ hok
  obtain ⟨u, hu, hok⟩ := bind_okOr_ok _ _ _ _ hok
  obtain ⟨ty, hty, hok⟩ := bind_okOr_ok _ _ _ _ hok
  rw [henc] at hencl
  injection hencl with hencl
  subst hencl
  rcases hbad with hb | hb
  · rw [hb] at hu; cases hu
  · rw [hb] at hty; cases hty

/-- If some member of the item list cannot parse, the whole item loop
cannot succeed. -/
theorem parseItems_not_ok_of_mem (rfc2822 : String → Option String) (item : XmlNode)
    (herr : ∀ ep, PodcastRs.parseItem rfc2822 item ≠ .ok ep) :
    ∀ l : List XmlNode, item ∈ l → ∀ es, PodcastRs.parseItems rfc2822 l ≠ .ok es := by
  intro l
  induction l with
  | nil => intro hmem; cases hmem
  | cons h t ih =>
    intro hmem es hok
    unfold PodcastRs.parseItems at hok
    obtain ⟨e1, he1, hok⟩ := except_bind_ok _ _ _ hok
    obtain ⟨es', hes', _⟩ := except_bind_ok _ _ _ hok
    rcases List.mem_cons.mp hmem with rfl | hmem'
    · exact herr e1 he1
    · exact ih hmem' es' hes'

/-- C4: on a feed document with no channel element, the parser iteration
of src/main.rs panics (it calls `unwrap()` on the failed search, the
`none` of the model) instead of returning the missing-channel error,
while the parser of src/podcast.rs returns the missing-channel error as
the claim states. -/
theorem c4_missing_channel_panics_in_main_rs :
    MainRs.parsePodcastData (fun _ => none) "http://u" c4Doc = none
    ∧ PodcastRs.downloadPodcastInfoFromUrl (fun _ => none) "http://u" c4Doc
        = .error "missing channel tag" :=
  ⟨rfl, rfl⟩

/-- C5 counterexample: the parser of src/main.rs accepts a feed whose
item enclosure has no `type` attribute at all — the attribute is never
read — and returns a podcast containing that episode, so parsing does
not fail with a missing-attribute error. -/
theorem c5_counterexample_main_parser_accepts_missing_type :
    MainRs.parsePodcastData (fun _ => none) "http://u" c5Doc
      = some ⟨"T", "D", "http://u", [⟨"E", "d", "1970-01-01", "http://x/e.mp3"⟩]⟩ :=
  rfl

/-- C5 amended: in `download_podcast_info_from_url`, a feed containing an
item whose enclosure lacks the `url` or the `type` attribute never
parses to a podcast: the whole parse fails with an error, so no podcast
with that episode skipped and no partial episode list is ever
returned. -/
theorem c5_enclosure_attr_required (rfc2822 : String → Option String) (url : String)
    (doc ch item enc : XmlNode)
    (hch : doc.findDescendant "channel" = some ch)
    (hitem : item ∈ ch.children.filter (XmlNode.hasTagName "item"))
    (henc : item.findChild "enclosure" = some enc)
    (hbad : enc.attr "url" = none ∨ enc.attr "type" = none) :
    ∃ e, PodcastRs.downloadPodcastInfoFromUrl rfc2822 url doc = .error e := by
  cases hres : PodcastRs.downloadPodcastInfoFromUrl rfc2822 url doc with
  | error e => exact ⟨e, rfl⟩
  | ok p =>
    exfalso
    unfold PodcastRs.downloadPodcastInfoFromUrl at hres
    obtain ⟨c, hc, hres⟩ := bind_okOr_ok _ _ _ _ hres
    rw [hch] at hc
    injection hc with hc
    subst hc
    obtain ⟨t, ht, hres⟩ := bind_okOr_ok _ _ _ _ hres
    obtain ⟨d, hd, hres⟩ := bind_okOr_ok _ _ _ _ hres
    obtain ⟨es, hes, _⟩ := except_bind_ok _ _ _ hres
    exact parseItems_not_ok_of_mem rfc2822 item
      (parseItem_not_ok_of_bad_enclosure rfc2822 item enc henc hbad)
      _ hitem es hes

/-- C5 witness: the amended theorem applied to the concrete feed whose
enclosure carries a `url` but no `type` attribute. -/
theorem c5_witness :
    c5Doc.findDescendant "channel" = some c5Channel
    ∧ c5Item.findChild "enclosure" = some (.elem "enclosure" [("url", "http://x/e.mp3")] [])
    ∧ XmlNode.attr (.elem "enclosure" [("url", "http://x/e.mp3")] []) "type" = none
    ∧ ∃ e, PodcastRs.downloadPodcastInfoFromUrl (fun _ => some "2024-01-01") "http://u" c5Doc
        = .error e :=
  ⟨rfl, rfl, rfl,
    c5_enclosure_attr_required (fun _ => some "2024-01-01") "http://u" c5Doc c5Channel
      c5Item (.elem "enclosure" [("url", "http://x/e.mp3")] [])
      rfl
      (by show c5Item ∈ [c5Item]; exact List.mem_singleton.mpr rfl)
      rfl (Or.inr rfl)⟩

/-- C6 counterexample: a channel with a title but no description element
does not parse to a podcast with an empty description; the parse fails
with the missing-description-tag error. -/
theorem c6_counterexample_missing_description_is_error :
    PodcastRs.downloadPodcastInfoFromUrl (fun _ => none) "http://u" c6Doc
      = .error "missing description tag" :=
  rfl

/-- Inversion for a successful bind in the `Except` monad, over an
arbitrary error type. -/
theorem except_bind_ok_any {ε α β : Type} (x : Except ε α) (f : α → Except ε β)
    (b : β) (h : (x >>= f) = .ok b) : ∃ a, x = .ok a ∧ f a = .ok b := by
  cases x with
  | error e => simp [Bind.bind, Except.bind] at h
  | ok a => exact ⟨a, rfl, by simpa [Bind.bind, Except.bind] using h⟩

/-- Inversion for a successful bind whose head is a typed `ok_or`
conversion. -/
theorem bind_okOrE_ok {ε α β : Type} (o : Option α) (e : ε)
    (f : α → Except ε β) (b : β) (h : (okOrE o e >>= f) = .ok b) :
    ∃ a, o = some a ∧ f a = .ok b := by
  cases o with
  | none => simp [okOrE, Bind.bind, Except.bind] at h
  | some a => exact ⟨a, rfl, by simpa [okOrE, Bind.bind, Except.bind] using h⟩

/-- Channel half of the podcast.rs parser: success requires the
description element and takes the description from its text. -/
theorem channel_description_of_ok (rfc2822 : String → Option String) (url : String)
    (doc ch : XmlNode) (p : PodcastRs.Podcast)
    (hch : doc.findDescendant "channel" = some ch)
    (hok : PodcastRs.downloadPodcastInfoFromUrl rfc2822 url doc = .ok p) :
    ∃ d, ch.findChild "description" = some d ∧ p.description = (d.nodeText).getD "" := by
  unfold PodcastRs.downloadPodcastInfoFromUrl at hok
  obtain ⟨c, hc, hok⟩ := bind_okOr_ok _ _ _ _ hok
  rw [hch] at hc
  injection hc with hc
  subst hc
  obtain ⟨t, ht, hok⟩ := bind_okOr_ok _ _ _ _ hok
  obtain ⟨d, hd, hok⟩ := bind_okOr_ok _ _ _ _ hok
  obtain ⟨es, hes, hok⟩ := except_bind_ok _ _ _ hok
  injection hok with hok
  exact ⟨d, hd, by rw [← hok]⟩

/-- Item half of the podcast.rs parser: a successfully parsed item has a
description element and the episode's description is its text. -/
theorem item_description_of_ok (rfc2822 : String → Option String)
    (item : XmlNode) (ep : PodcastRs.Episode)
    (hok : PodcastRs.parseItem rfc2822 item = .ok ep) :
    ∃ d, item.findChild "description" = some d ∧ ep.description = (d.nodeText).getD "" := by
  unfold PodcastRs.parseItem at hok
  obtain ⟨t, ht, hok⟩ := bind_okOr_ok _ _ _ _ hok
  obtain ⟨d, hd, hok⟩ := bind_okOr_ok _ _ _ _ hok
  obtain ⟨pd, hpd, hok⟩ := bind_okOr_ok _ _ _ _ hok
  obtain ⟨dt, hdt, hok⟩ := bind_okOr_ok _ _ _ _ hok
  obtain ⟨encl, hencl, hok⟩ := bind_okOr_ok _ _ _ _ hok
  obtain ⟨u, hu, hok⟩ := bind_okOr_ok _ _ _ _ hok
  obtain ⟨ty, hty, hok⟩ := bind_okOr_ok _ _ _ _ hok
  injection hok with hok
  exact ⟨d, hd, by rw [← hok]⟩

/-- Channel half of the rss.rs parser: success requires the title
element and the podcast description is the title element's text, not
the description element's. -/
theorem rss_channel_description_of_ok (rfc2822 : String → Option String) (url : String)
    (doc ch : XmlNode) (p : RssRs.Podcast)
    (hch : doc.findDescendant "channel" = some ch)
    (hok : RssRs.downloadPodcastInfo rfc2822 url doc = .ok p) :
    ∃ t, ch.findChild "title" = some t ∧ ∃ s, t.nodeText = some s ∧ p.description = s := by
  unfold RssRs.downloadPodcastInfo at hok
  obtain ⟨c, hc, hok⟩ := bind_okOrE_ok _ _ _ _ hok
  rw [hch] at hc
  injection hc with hc
  subst hc
  obtain ⟨t1, ht1, hok⟩ := bind_okOrE_ok _ _ _ _ hok
  obtain ⟨s1, hs1, hok⟩ := bind_okOrE_ok _ _ _ _ hok
  obtain ⟨t2, ht2, hok⟩ := bind_okOrE_ok _ _ _ _ hok
  obtain ⟨s2, hs2, hok⟩ := bind_okOrE_ok _ _ _ _ hok
  obtain ⟨es, hes, hok⟩ := except_bind_ok_any _ _ _ hok
  injection hok with hok
  exact ⟨t2, ht2, s2, hs2, by rw [← hok]⟩

/-- C6 amended: the description element is not optional-with-empty
default.  In `download_podcast_info_from_url` (podcast.rs), a parse that
succeeds has found a description element in the channel, and in every
parsed item, with the description taken from that element's text,
defaulting to empty only when the present element has no text (absence
of the element is the missing-description-tag error, as the
counterexample shows).  In `download_podcast_info` (rss.rs), the channel
description is not taken from the description element at all: a
successful parse reads it from the channel's title element, whose text
is required. -/
theorem c6_description_handling :
    (∀ (rfc2822 : String → Option String) (url : String) (doc ch : XmlNode)
        (p : PodcastRs.Podcast),
      doc.findDescendant "channel" = some ch →
      PodcastRs.downloadPodcastInfoFromUrl rfc2822 url doc = .ok p →
      ∃ d, ch.findChild "description" = some d ∧ p.description = (d.nodeText).getD "")
    ∧ (∀ (rfc2822 : String → Option String) (item : XmlNode) (ep : PodcastRs.Episode),
      PodcastRs.parseItem rfc2822 item = .ok ep →
      ∃ d, item.findChild "description" = some d ∧ ep.description = (d.nodeText).getD "")
    ∧ (∀ (rfc2822 : String → Option String) (url : String) (doc ch : XmlNode)
        (p : RssRs.Podcast),
      doc.findDescendant "channel" = some ch →
      RssRs.downloadPodcastInfo rfc2822 url doc = .ok p →
      ∃ t, ch.findChild "title" = some t ∧ ∃ s, t.nodeText = some s ∧ p.description = s) :=
  ⟨fun rfc2822 url doc ch p hch hok =>
      channel_description_of_ok rfc2822 url doc ch p hch hok,
    fun rfc2822 item ep hok => item_description_of_ok rfc2822 item ep hok,
    fun rfc2822 url doc ch p hch hok =>
      rss_channel_description_of_ok rfc2822 url doc ch p hch hok⟩

/-- C6 witness: the amended theorem applied to three concrete parses — a
channel whose description element is present but empty (podcast.rs), a
well-formed item with an empty description element (podcast.rs), and a
channel with no description element at all, which rss.rs still parses,
copying the title text into the description. -/
theorem c6_witness :
    PodcastRs.downloadPodcastInfoFromUrl (fun _ => none) "http://u" c6WDoc
        = .ok ⟨"T", "", "http://u", []⟩
    ∧ PodcastRs.parseItem (fun _ => some "2024-01-01") c6Item
        = .ok ⟨"E", "", "2024-01-01", "http://x/e.mp3", "audio/mpeg"⟩
    ∧ RssRs.downloadPodcastInfo (fun _ => some "2024-01-01") "http://u" c6Doc
        = .ok ⟨"T", "T", "http://u", []⟩
    ∧ (∃ d, c6WChannel.findChild "description" = some d
        ∧ (⟨"T", "", "http://u", []⟩ : PodcastRs.Podcast).description = (d.nodeText).getD "")
    ∧ (∃ d, c6Item.findChild "description" = some d
        ∧ (⟨"E", "", "2024-01-01", "http://x/e.mp3", "audio/mpeg"⟩
            : PodcastRs.Episode).description = (d.nodeText).getD "")
    ∧ (∃ t, c6Channel.findChild "title" = some t
        ∧ ∃ s, t.nodeText = some s
        ∧ (⟨"T", "T", "http://u", []⟩ : RssRs.Podcast).description = s) :=
  ⟨rfl, rfl, rfl,
    c6_description_handling.1 (fun _ => none) "http://u" c6WDoc c6WChannel
      ⟨"T", "", "http://u", []⟩ rfl rfl,
    c6_description_handling.2.1 (fun _ => some "2024-01-01") c6Item
      ⟨"E", "", "2024-01-01", "http://x/e.mp3", "audio/mpeg"⟩ rfl,
    c6_description_handling.2.2 (fun _ => some "2024-01-01") "http://u" c6Doc c6Channel
      ⟨"T", "T", "http://u", []⟩ rfl rfl⟩
